import Mathlib

/-!
# Verification of the expedia-server booking/user REST backend

Shallow embedding of the two Express/MongoDB server entry points
(`src/index.js` and the older server in `src/unnamed/part_000`).

Modelling conventions:
* A MongoDB collection is a `List` of documents; `findOne` is `List.find?`
  over the query predicate (Mongo returns the first match), `insertOne`
  appends, and `updateOne` with `$set` rewrites the first matching document.
* JSON documents are Lean structures; a field that may be absent in a
  document is an `Option` field (`none` = key absent / `undefined`).
* Timestamps and dates are integer millisecond counts (`Int`), as in
  `Date.getTime()`; "3 days" is `3 * msPerDay`.
* `Math.random()` is a rational parameter `r` with `0 ≤ r < 1`.
* JavaScript string truthiness: `undefined` and `""` are falsy.
-/

/-- Milliseconds per day, the unit behind `setDate(getDate() - 3)`. -/
def msPerDay : Int := 86400000

/-- JS `a || d` for an optional string `a`: `undefined` and `""` fall through
to the default (models `cancellationReason || "User requested"`). -/
def jsStrOr (s : Option String) (d : String) : String :=
  match s with
  | some v => if v = "" then d else v
  | none => d

/-- Payment info sub-document of a booking.  `cardNumber` is optional (the
creation handler tests `paymentInfo?.cardNumber` for truthiness); `rest`
stands for the arbitrary further key/value pairs carried along by the JS
spread `{...paymentInfo}`. -/
structure PaymentInfo where
  cardNumber : Option String
  rest : List (String × String)
deriving Repr, DecidableEq

/-- Cancellation sub-record written by `PUT /bookings/:id/cancel`. -/
structure Cancellation where
  date : Int
  reason : String
  refundEligible : Bool
deriving Repr, DecidableEq

/-- A stored booking document (collection `allBookings`).  `_id` models the
Mongo ObjectId; `status` and `cancellation` are absent on fresh bookings. -/
structure Booking where
  _id : Nat
  bookingId : String
  email : String
  resortId : String
  startDate : Int
  endDate : Int
  status : Option String
  paymentInfo : Option PaymentInfo
  cancellation : Option Cancellation
  createdAt : Int
  updatedAt : Int
  paymentDate : Int
deriving Repr, DecidableEq

/-- A stored user document (collection `users`).  The info fields are set by
`PATCH /update-user-info` and absent otherwise. -/
structure User where
  name : String
  email : String
  photoURL : Option String
  isAdmin : Bool
  age : Option Int
  securityDeposit : Option Int
  idNumber : Option String
  createdAt : Int
deriving Repr, DecidableEq

/-! ## Card masking (`maskCardNumber`, src/index.js lines 112–115) -/

/-- The fixed mask text prepended to the retained card digits. -/
def cardMaskText : String := "•••• •••• •••• "

/-- JS `cardNumber.slice(-4)`: the last four characters, or the whole string
when it is shorter than four characters (`Nat` subtraction gives `drop 0`). -/
def lastFour (s : String) : String :=
  (s.toList.drop (s.length - 4)).asString

/-- Function `maskCardNumber` from src/index.js: keep only the last four characters
behind the fixed mask text. -/
def maskCardNumber (cardNumber : String) : String :=
  cardMaskText ++ lastFour cardNumber

/-! ## Booking cancellation (`PUT /bookings/:id/cancel`, src/index.js 180–229) -/

/-- Model of `findOne({_id})` on the bookings collection. -/
def findBooking (store : List Booking) (oid : Nat) : Option Booking :=
  store.find? (fun b => b._id == oid)

/-- Model of `updateOne(query, {$set: ...})`: rewrite the first matching document,
leave everything else untouched. -/
def updateFirstBooking (p : Booking → Bool) (f : Booking → Booking) :
    List Booking → List Booking
  | [] => []
  | b :: rest => if p b then f b :: rest else b :: updateFirstBooking p f rest

/-- The refund-eligibility computation: `now < refundDeadline` where
`refundDeadline` is the stay start date minus three days
(`refundDeadline.setDate(refundDeadline.getDate() - 3)`). -/
def refundEligibleAt (now startDate : Int) : Bool :=
  decide (now < startDate - 3 * msPerDay)

/-- Outcome of the cancel endpoint: 404, 400 "already cancelled", or 200 with
the `refundEligible` flag echoed in the response body. -/
inductive CancelRes where
  | notFound
  | alreadyCancelled
  | ok (refundEligible : Bool)
deriving Repr, DecidableEq

/-- The `$set` update object of a cancellation: rewrite `status`,
`updatedAt` and `cancellation`, leave every other field of the document. -/
def applyCancelSet (now : Int) (c : Cancellation) (x : Booking) : Booking :=
  { x with status := some "cancelled", updatedAt := now, cancellation := some c }

/-- Handler `PUT /bookings/:id/cancel`: look the booking up, reject a second
cancellation, otherwise `$set` status/updatedAt/cancellation and answer with
the stored eligibility flag. -/
def cancelBooking (store : List Booking) (oid : Nat) (reason : Option String)
    (now : Int) : CancelRes × List Booking :=
  match findBooking store oid with
  | none => (.notFound, store)
  | some b =>
    if b.status = some "cancelled" then
      (.alreadyCancelled, store)
    else
      let c : Cancellation :=
        { date := now
          reason := jsStrOr reason "User requested"
          refundEligible := refundEligibleAt now b.startDate }
      let store' := updateFirstBooking (fun x => x._id == oid)
        (applyCancelSet now c) store
      (.ok c.refundEligible, store')

/-! ## Booking creation (`POST /bookings`, src/index.js 69–109) -/

/-- The client-supplied booking payload (spread into the new document). -/
structure BookingPayload where
  email : String
  resortId : String
  startDate : Int
  endDate : Int
  status : Option String
  paymentInfo : Option PaymentInfo
deriving Repr, DecidableEq

/-- Model of `Math.floor(100000 + Math.random() * 900000)` with `Math.random() = r`. -/
def genBookingNum (r : ℚ) : Int :=
  Int.floor ((100000 : ℚ) + r * 900000)

/-- Decimal digit characters of a natural number, most significant first:
the embedding of JS number-to-string conversion inside a template literal. -/
def decimalDigits (n : Nat) : List Char :=
  if h : n < 10 then [Char.ofNat (48 + n)]
  else decimalDigits (n / 10) ++ [Char.ofNat (48 + n % 10)]
decreasing_by
  exact Nat.div_lt_self (by omega) (by omega)

/-- Decimal rendering of a natural number as a string. -/
def natToDecimal (n : Nat) : String :=
  (decimalDigits n).asString

/-- The template literal `` `TR-${Math.floor(100000 + Math.random() * 900000)}` ``. -/
def genBookingId (r : ℚ) : String :=
  "TR-" ++ natToDecimal (genBookingNum r).toNat

/-- The inserted booking document: payload fields plus generated id and
`createdAt = updatedAt = paymentDate = now`; `oid` is the ObjectId the store
assigns on insert. -/
def mkNewBooking (p : BookingPayload) (r : ℚ) (now : Int) (oid : Nat) : Booking :=
  { _id := oid
    bookingId := genBookingId r
    email := p.email
    resortId := p.resortId
    startDate := p.startDate
    endDate := p.endDate
    status := p.status
    paymentInfo := p.paymentInfo
    cancellation := none
    createdAt := now
    updatedAt := now
    paymentDate := now }

/-- Response shaping of the created booking's payment info:
`newBooking.paymentInfo?.cardNumber ? {...paymentInfo, cardNumber: masked} :
newBooking.paymentInfo`. -/
def maskPaymentInfo (pi : Option PaymentInfo) : Option PaymentInfo :=
  match pi with
  | some info =>
    match info.cardNumber with
    | some c => if c = "" then some info
                else some { info with cardNumber := some (maskCardNumber c) }
    | none => some info
  | none => none

/-- Handler `POST /bookings`: build the document, insert it, and answer 201 with the
booking id and the document with its card number masked. -/
def postBooking (store : List Booking) (p : BookingPayload) (r : ℚ) (now : Int)
    (oid : Nat) : (String × Booking) × List Booking :=
  let nb := mkNewBooking p r now oid
  ((nb.bookingId, { nb with paymentInfo := maskPaymentInfo nb.paymentInfo }),
    store ++ [nb])

/-! ## Owner booking listing (`GET /bookings?email=`, src/index.js 119–147) -/

/-- Descending order on `createdAt` (`sort({createdAt: -1})`). -/
def newestFirst (a b : Booking) : Bool :=
  decide (b.createdAt ≤ a.createdAt)

/-- The projection `{paymentInfo: 0}`: the returned document lacks the
`paymentInfo` key. -/
def redactPayment (b : Booking) : Booking :=
  { b with paymentInfo := none }

/-- A document as shaped for the owner listing response: the stored fields
with `startDate`/`endDate` replaced by their display-formatted strings. -/
structure DisplayBooking where
  _id : Nat
  bookingId : String
  email : String
  resortId : String
  startDateText : String
  endDateText : String
  status : Option String
  paymentInfo : Option PaymentInfo
  cancellation : Option Cancellation
  createdAt : Int
  updatedAt : Int
  paymentDate : Int
deriving Repr, DecidableEq

/-- The response shaping `{...booking, startDate: formatDisplayDate(...), endDate: ...}` where
`fmt` stands for the locale renderer `formatDisplayDate`. -/
def toDisplay (fmt : Int → String) (b : Booking) : DisplayBooking :=
  { _id := b._id
    bookingId := b.bookingId
    email := b.email
    resortId := b.resortId
    startDateText := fmt b.startDate
    endDateText := fmt b.endDate
    status := b.status
    paymentInfo := b.paymentInfo
    cancellation := b.cancellation
    createdAt := b.createdAt
    updatedAt := b.updatedAt
    paymentDate := b.paymentDate }

/-- Handler `GET /bookings?email=`: find by email, newest first, payment info
projected away, dates formatted for display. -/
def ownerBookings (store : List Booking) (email : String) (fmt : Int → String) :
    List DisplayBooking :=
  (((store.filter (fun b => b.email == email)).mergeSort newestFirst).map
    redactPayment).map (toDisplay fmt)

/-! ## Admin booking query (`GET /admin/bookings`, src/index.js 150–177) -/

/-- The admin query-string filters; `none` models an absent parameter and the
date bounds are the parsed `new Date(...)` values. -/
structure AdminQuery where
  status : Option String
  resortId : Option String
  startDate : Option Int
  endDate : Option Int
deriving Repr, DecidableEq

/-- The Mongo query object built by the handler: `status`/`resortId` equality
filters are added only for truthy parameters, and the date-range bounds only
when both `startDate` and `endDate` are supplied. -/
def matchesAdmin (q : AdminQuery) (b : Booking) : Bool :=
  (match q.status with
   | some s => if s = "" then true else b.status == some s
   | none => true) &&
  (match q.resortId with
   | some rid => if rid = "" then true else b.resortId == rid
   | none => true) &&
  (match q.startDate, q.endDate with
   | some lo, some hi => decide (lo ≤ b.startDate) && decide (b.endDate ≤ hi)
   | _, _ => true)

/-- Handler `GET /admin/bookings`: filtered collection, newest first, no redaction. -/
def adminBookings (store : List Booking) (q : AdminQuery) : List Booking :=
  (store.filter (matchesAdmin q)).mergeSort newestFirst

/-! ## User routes (src/index.js 36–66 and src/unnamed/part_000 55–152) -/

/-- Responses of the user endpoints, tagged with their HTTP status. -/
inductive UserRes where
  | badRequest
  | conflict
  | created (u : User)
  | createdLegacy
  | notFound
  | okModified (n : Nat)
  | okMsg
deriving Repr, DecidableEq

/-- HTTP status code of each user-endpoint response. -/
def UserRes.statusCode : UserRes → Nat
  | .badRequest => 400
  | .conflict => 409
  | .created _ => 201
  | .createdLegacy => 201
  | .notFound => 404
  | .okModified _ => 200
  | .okMsg => 200

/-- Handler `POST /users` (src/index.js): presence check, duplicate-email check via
`findOne({email})`, then insert `{name, email, photoURL, isAdmin: false,
createdAt}`. -/
def createUser (users : List User) (name? email? photoURL? : Option String)
    (now : Int) : UserRes × List User :=
  match name?, email? with
  | some nm, some e =>
    if nm = "" ∨ e = "" then (.badRequest, users)
    else
      match users.find? (fun u => u.email == e) with
      | some _ => (.conflict, users)
      | none =>
        let u : User :=
          { name := nm, email := e, photoURL := photoURL?, isAdmin := false,
            age := none, securityDeposit := none, idNumber := none,
            createdAt := now }
        (.created u, users ++ [u])
  | _, _ => (.badRequest, users)

/-- Handler `POST /users` (src/unnamed/part_000): same guards, but the raw request
body is inserted and only the new id is echoed. -/
def createUserLegacy (users : List User) (name? email? : Option String)
    (body : User) : UserRes × List User :=
  match name?, email? with
  | some nm, some e =>
    if nm = "" ∨ e = "" then (.badRequest, users)
    else
      match users.find? (fun u => u.email == e) with
      | some _ => (.conflict, users)
      | none => (.createdLegacy, users ++ [body])
  | _, _ => (.badRequest, users)

/-- Model of `updateOne(query, {$set: ...})` on the users collection, returning the
`modifiedCount`: the first matching document is rewritten, and it counts as
modified only if the rewrite actually changed it. -/
def updateOneUsers (p : User → Bool) (f : User → User) :
    List User → Nat × List User
  | [] => (0, [])
  | u :: rest =>
    if p u then (if f u = u then 0 else 1, f u :: rest)
    else
      let (n, rest') := updateOneUsers p f rest
      (n, u :: rest')

/-- The update `$set: {isAdmin}`. -/
def setAdmin (v : Bool) (u : User) : User :=
  { u with isAdmin := v }

/-- The update `$set: {age, securityDeposit, idNumber}` (absent body fields are written
as absent values, matching the driver's serialization of `undefined`). -/
def setInfo (a d : Option Int) (i : Option String) (u : User) : User :=
  { u with age := a, securityDeposit := d, idNumber := i }

/-- The `{email}` query of the update routes; an absent email parameter
matches no stored user, since every stored document carries an email. -/
def userEmailPred (e? : Option String) (u : User) : Bool :=
  match e? with
  | some e => u.email == e
  | none => false

/-- Handler `PATCH /update-user` (src/index.js 60–66): requires a truthy email, then
answers 200 with `{modified: result.modifiedCount}` — there is no 404 path. -/
def updateUser (users : List User) (email? : Option String) (isAdmin : Bool) :
    UserRes × List User :=
  match email? with
  | none => (.badRequest, users)
  | some e =>
    if e = "" then (.badRequest, users)
    else
      let (n, users') := updateOneUsers (fun u => u.email == e) (setAdmin isAdmin) users
      (.okModified n, users')

/-- Handler `PATCH /update-user` (src/unnamed/part_000 104–126): requires a truthy
email and a boolean `isAdmin`; answers 404 when `modifiedCount === 0`. -/
def updateUserLegacy (users : List User) (email? : Option String)
    (isAdmin? : Option Bool) : UserRes × List User :=
  match email?, isAdmin? with
  | some e, some v =>
    if e = "" then (.badRequest, users)
    else
      let (n, users') := updateOneUsers (fun u => u.email == e) (setAdmin v) users
      if n = 0 then (.notFound, users') else (.okMsg, users')
  | _, _ => (.badRequest, users)

/-- Handler `PATCH /update-user-info` (src/unnamed/part_000 128–152): no validation;
answers 404 when `modifiedCount === 0`. -/
def updateUserInfo (users : List User) (email? : Option String)
    (a d : Option Int) (i : Option String) : UserRes × List User :=
  let (n, users') := updateOneUsers (userEmailPred email?) (setInfo a d i) users
  if n = 0 then (.notFound, users') else (.okMsg, users')

/-! ## Sample concrete documents (used to exercise the models) -/

/-- A sample active booking: stay starts four days after epoch time 0. -/
def sampleBooking : Booking :=
  { _id := 1
    bookingId := "TR-123456"
    email := "guest@example.com"
    resortId := "r1"
    startDate := 4 * msPerDay
    endDate := 6 * msPerDay
    status := none
    paymentInfo := some { cardNumber := some "4111111111111234",
                          rest := [("expiry", "12/26")] }
    cancellation := none
    createdAt := 10
    updatedAt := 10
    paymentDate := 10 }

/-- The sample booking after an earlier cancellation. -/
def cancelledBooking : Booking :=
  { sampleBooking with
    status := some "cancelled"
    cancellation := some { date := 3, reason := "Change of plans",
                           refundEligible := true } }

/-- A sample creation payload carrying a card number. -/
def samplePayload : BookingPayload :=
  { email := "guest@example.com"
    resortId := "r1"
    startDate := 4 * msPerDay
    endDate := 6 * msPerDay
    status := none
    paymentInfo := some { cardNumber := some "4111111111111234",
                          rest := [("expiry", "12/26")] } }

/-- A sample stored user. -/
def sampleUser : User :=
  { name := "Brian"
    email := "brian@example.com"
    photoURL := none
    isAdmin := false
    age := none
    securityDeposit := none
    idNumber := none
    createdAt := 0 }

/-! ## Helper lemmas about the store primitives -/

/-- Looking a document up after `updateOne` rewrote the first match: the
lookup now yields the rewritten document, provided the rewrite keeps the
queried `_id`. -/
lemma findBooking_updateFirstBooking (f : Booking → Booking) (oid : Nat)
    (hid : ∀ x, (f x)._id = x._id) :
    ∀ (store : List Booking) (b : Booking),
      findBooking store oid = some b →
      findBooking (updateFirstBooking (fun x => x._id == oid) f store) oid =
        some (f b) := by
  intro store
  induction store with
  | nil => intro b h; simp [findBooking] at h
  | cons hd tl ih =>
    intro b h
    by_cases hhd : (hd._id == oid) = true
    · have hf : ((f hd)._id == oid) = true := by
        have := hid hd
        simp_all
      simp only [findBooking, List.find?_cons, hhd] at h
      cases h
      simp [updateFirstBooking, hhd, findBooking, List.find?_cons, hf]
    · rw [Bool.not_eq_true] at hhd
      simp only [findBooking, List.find?_cons, hhd] at h
      simp only [updateFirstBooking, hhd, Bool.false_eq_true, if_false]
      simp only [findBooking, List.find?_cons, hhd]
      exact ih b h

/-- The operation `updateOne` leaves any per-document view `g` untouched across the whole
collection when the rewrite preserves that view. -/
lemma map_updateFirstBooking {β : Type} (g : Booking → β) (p : Booking → Bool)
    (f : Booking → Booking) (hg : ∀ x, g (f x) = g x) :
    ∀ store : List Booking,
      (updateFirstBooking p f store).map g = store.map g := by
  intro store
  induction store with
  | nil => rfl
  | cons hd tl ih =>
    by_cases hhd : p hd
    · simp [updateFirstBooking, hhd, hg hd]
    · simp [updateFirstBooking, hhd, ih]

/-- The operation `updateOne` leaves every document that does not match the query exactly
as it was, provided matching is stable under the rewrite. -/
lemma filter_not_updateFirstBooking (p : Booking → Bool) (f : Booking → Booking)
    (hp : ∀ x, p (f x) = p x) :
    ∀ store : List Booking,
      (updateFirstBooking p f store).filter (fun x => !(p x)) =
        store.filter (fun x => !(p x)) := by
  intro store
  induction store with
  | nil => rfl
  | cons hd tl ih =>
    by_cases hhd : p hd
    · simp [updateFirstBooking, hhd, List.filter_cons, hp hd]
    · simp [updateFirstBooking, hhd, List.filter_cons, ih]

/-! ## Decimal rendering lemmas (for the booking-id format) -/

/-- A number with `k + 1` decimal digits renders to exactly `k + 1`
characters. -/
lemma decimalDigits_length :
    ∀ (k n : Nat), 10 ^ k ≤ n → n < 10 ^ (k + 1) →
      (decimalDigits n).length = k + 1 := by
  intro k
  induction k with
  | zero =>
    intro n h1 h2
    have h2' : n < 10 := by simpa using h2
    rw [decimalDigits]
    simp [h2']
  | succ k ih =>
    intro n h1 h2
    have hge : 10 ≤ n := le_trans (by calc
      10 = 10 ^ 1 := (pow_one 10).symm
      _ ≤ 10 ^ (k + 1) := Nat.pow_le_pow_right (by omega) (by omega)) h1
    rw [decimalDigits]
    simp only [show ¬ n < 10 by omega, dif_neg, not_false_iff]
    have hlo : 10 ^ k ≤ n / 10 := by
      rw [Nat.le_div_iff_mul_le (by omega)]
      calc 10 ^ k * 10 = 10 ^ (k + 1) := by ring
        _ ≤ n := h1
    have hhi : n / 10 < 10 ^ (k + 1) := by
      rw [Nat.div_lt_iff_lt_mul (by omega)]
      calc n < 10 ^ (k + 2) := h2
        _ = 10 ^ (k + 1) * 10 := by ring
    simp [ih (n / 10) hlo hhi]

/-- Every character the decimal rendering produces is a digit. -/
lemma decimalDigits_isDigit (n : Nat) :
    ∀ c ∈ decimalDigits n, c.isDigit = true := by
  induction n using Nat.strong_induction_on with
  | _ n ih =>
    rw [decimalDigits]
    split
    · rename_i h
      intro c hc
      simp only [List.mem_singleton] at hc
      subst hc
      interval_cases n <;> decide
    · rename_i h
      intro c hc
      rw [List.mem_append] at hc
      rcases hc with hc | hc
      · exact ih (n / 10) (Nat.div_lt_self (by omega) (by omega)) c hc
      · simp only [List.mem_singleton] at hc
        subst hc
        have h10 : n % 10 < 10 := Nat.mod_lt _ (by omega)
        revert h10
        generalize n % 10 = m
        intro h10
        interval_cases m <;> decide

/-- The generated booking number lies between 100000 and 999999. -/
lemma genBookingNum_range (r : ℚ) (h0 : 0 ≤ r) (h1 : r < 1) :
    100000 ≤ genBookingNum r ∧ genBookingNum r ≤ 999999 := by
  constructor
  · apply Int.le_floor.mpr
    push_cast
    nlinarith
  · have : genBookingNum r < 1000000 := by
      apply Int.floor_lt.mpr
      push_cast
      nlinarith
    omega

/-! ## Claim theorems -/

/-- C10: for every card-number string of length at most four, `maskCardNumber`
returns the mask text followed by the entire input string, so a short card
number is revealed in full. -/
theorem maskCardNumber_short_reveals_input (s : String) (h : s.length ≤ 4) :
    maskCardNumber s = cardMaskText ++ s := by
  unfold maskCardNumber lastFour
  have hz : s.length - 4 = 0 := by omega
  rw [hz, List.drop_zero, String.asString_toList]

/-- Witness for C10 at the concrete input `"123"`. -/
theorem maskCardNumber_short_reveals_input_witness :
    ("123" : String).length ≤ 4 ∧ maskCardNumber "123" = cardMaskText ++ "123" :=
  ⟨by decide, maskCardNumber_short_reveals_input "123" (by decide)⟩

/-- C3: a booking creation whose payload holds payment info with a (truthy)
card number returns that payment info with the card number replaced by the
fixed mask text followed by the last four characters of the input (the last
`min 4 length` characters, a suffix of the input), and every other
payment-info field unchanged. -/
theorem postBooking_masks_card (store : List Booking) (p : BookingPayload)
    (r : ℚ) (now : Int) (oid : Nat) (info : PaymentInfo) (c : String)
    (hpi : p.paymentInfo = some info) (hc : info.cardNumber = some c)
    (hne : c ≠ "") :
    (postBooking store p r now oid).1.2.paymentInfo =
        some { info with cardNumber := some (maskCardNumber c) }
      ∧ maskCardNumber c = cardMaskText ++ lastFour c
      ∧ (lastFour c).length = min 4 c.length
      ∧ (lastFour c).toList <:+ c.toList := by
  refine ⟨?_, rfl, ?_, ?_⟩
  · simp [postBooking, mkNewBooking, maskPaymentInfo, hpi, hc, hne]
  · unfold lastFour
    rw [List.length_asString, List.length_drop]
    have hlen : c.toList.length = c.length := rfl
    omega
  · unfold lastFour
    rw [List.toList_asString]
    exact List.drop_suffix _ _

/-- Witness for C3 at a concrete payload. -/
theorem postBooking_masks_card_witness :
    (postBooking [] samplePayload 0 0 0).1.2.paymentInfo =
        some { cardNumber := some (maskCardNumber "4111111111111234"),
               rest := [("expiry", "12/26")] }
      ∧ maskCardNumber "4111111111111234" =
          cardMaskText ++ lastFour "4111111111111234"
      ∧ (lastFour "4111111111111234").length =
          min 4 ("4111111111111234" : String).length
      ∧ (lastFour "4111111111111234").toList <:+
          ("4111111111111234" : String).toList :=
  postBooking_masks_card [] samplePayload 0 0 0
    ⟨some "4111111111111234", [("expiry", "12/26")]⟩ "4111111111111234"
    rfl rfl (by decide)

/-- C8: on every booking creation the generated identifier is `"TR-"`
followed by the decimal rendering of a number in 100000–999999, which has
exactly six characters, all decimal digits. -/
theorem booking_id_format (store : List Booking) (p : BookingPayload) (r : ℚ)
    (now : Int) (oid : Nat) (h0 : 0 ≤ r) (h1 : r < 1) :
    (postBooking store p r now oid).1.1 =
        "TR-" ++ natToDecimal (genBookingNum r).toNat
      ∧ 100000 ≤ (genBookingNum r).toNat
      ∧ (genBookingNum r).toNat ≤ 999999
      ∧ (natToDecimal (genBookingNum r).toNat).length = 6
      ∧ ((natToDecimal (genBookingNum r).toNat).toList.all Char.isDigit)
          = true := by
  obtain ⟨hlo, hhi⟩ := genBookingNum_range r h0 h1
  have hlo' : 100000 ≤ (genBookingNum r).toNat := by omega
  have hhi' : (genBookingNum r).toNat ≤ 999999 := by omega
  refine ⟨rfl, hlo', hhi', ?_, ?_⟩
  · unfold natToDecimal
    rw [List.length_asString]
    exact decimalDigits_length 5 _ (by omega) (by omega)
  · unfold natToDecimal
    rw [List.toList_asString, List.all_eq_true]
    exact decimalDigits_isDigit _

/-- Witness for C8 at `Math.random() = 0` (booking number 100000). -/
theorem booking_id_format_witness :
    (postBooking [] samplePayload 0 0 0).1.1 =
        "TR-" ++ natToDecimal (genBookingNum 0).toNat
      ∧ 100000 ≤ (genBookingNum 0).toNat
      ∧ (genBookingNum 0).toNat ≤ 999999
      ∧ (natToDecimal (genBookingNum 0).toNat).length = 6
      ∧ ((natToDecimal (genBookingNum 0).toNat).toList.all Char.isDigit)
          = true :=
  booking_id_format [] samplePayload 0 0 0 (le_refl 0) (by norm_num)

/-- C1: cancelling an existing, not-yet-cancelled booking stores and returns
a `refundEligible` flag that is true exactly when the cancellation time is
strictly before the stay start date minus three days; at exactly that
deadline the flag is false. -/
theorem cancel_refund_boundary (store : List Booking) (oid : Nat)
    (reason : Option String) (now : Int) (b : Booking)
    (hfind : findBooking store oid = some b)
    (hact : b.status ≠ some "cancelled") :
    (cancelBooking store oid reason now).1 =
        .ok (refundEligibleAt now b.startDate)
      ∧ (findBooking (cancelBooking store oid reason now).2 oid).map
          (fun x => x.cancellation) =
          some (some { date := now, reason := jsStrOr reason "User requested",
                       refundEligible := refundEligibleAt now b.startDate })
      ∧ (refundEligibleAt now b.startDate = true ↔
          now < b.startDate - 3 * msPerDay)
      ∧ refundEligibleAt (b.startDate - 3 * msPerDay) b.startDate = false := by
  have hupd := findBooking_updateFirstBooking
    (applyCancelSet now ⟨now, jsStrOr reason "User requested",
      refundEligibleAt now b.startDate⟩)
    oid (fun x => rfl) store b hfind
  refine ⟨?_, ?_, ?_, ?_⟩
  · simp [cancelBooking, hfind, hact]
  · simp [cancelBooking, hfind, hact, hupd, applyCancelSet]
  · simp [refundEligibleAt]
  · simp [refundEligibleAt]

/-- Witness for C1: cancelling the sample booking at time 0, four days
before its stay start, and checking the boundary instant. -/
theorem cancel_refund_boundary_witness :
    (cancelBooking [sampleBooking] 1 none 0).1 =
        .ok (refundEligibleAt 0 sampleBooking.startDate)
      ∧ (findBooking (cancelBooking [sampleBooking] 1 none 0).2 1).map
          (fun x => x.cancellation) =
          some (some { date := 0, reason := jsStrOr none "User requested",
                       refundEligible := refundEligibleAt 0 sampleBooking.startDate })
      ∧ (refundEligibleAt 0 sampleBooking.startDate = true ↔
          (0 : Int) < sampleBooking.startDate - 3 * msPerDay)
      ∧ refundEligibleAt (sampleBooking.startDate - 3 * msPerDay)
          sampleBooking.startDate = false :=
  cancel_refund_boundary [sampleBooking] 1 none 0 sampleBooking rfl (by decide)

/-- C2: a cancellation request for an already-cancelled booking answers the
"already cancelled" client error and leaves the store (hence the stored
cancellation sub-record) unchanged; the first cancellation of an active
booking succeeds and sets the stored status to "cancelled". -/
theorem cancel_twice (store : List Booking) (oid : Nat)
    (reason : Option String) (now : Int) (b : Booking)
    (hfind : findBooking store oid = some b) :
    (b.status = some "cancelled" →
        cancelBooking store oid reason now = (.alreadyCancelled, store))
    ∧ (b.status ≠ some "cancelled" →
        (cancelBooking store oid reason now).1 =
            .ok (refundEligibleAt now b.startDate)
          ∧ (findBooking (cancelBooking store oid reason now).2 oid).map
              (fun x => x.status) = some (some "cancelled")) := by
  constructor
  · intro hcan
    simp [cancelBooking, hfind, hcan]
  · intro hact
    have hupd := findBooking_updateFirstBooking
      (applyCancelSet now ⟨now, jsStrOr reason "User requested",
        refundEligibleAt now b.startDate⟩)
      oid (fun x => rfl) store b hfind
    constructor
    · simp [cancelBooking, hfind, hact]
    · simp [cancelBooking, hfind, hact, hupd, applyCancelSet]

/-- Witness for C2: a second cancellation of the already-cancelled sample
booking is rejected without touching the store, and a first cancellation of
the active sample booking succeeds. -/
theorem cancel_twice_witness :
    cancelBooking [cancelledBooking] 1 none 0 =
        (.alreadyCancelled, [cancelledBooking])
    ∧ ((cancelBooking [sampleBooking] 1 none 0).1 =
          .ok (refundEligibleAt 0 sampleBooking.startDate)
        ∧ (findBooking (cancelBooking [sampleBooking] 1 none 0).2 1).map
            (fun x => x.status) = some (some "cancelled")) :=
  ⟨(cancel_twice [cancelledBooking] 1 none 0 cancelledBooking rfl).1 (by decide),
   (cancel_twice [sampleBooking] 1 none 0 sampleBooking rfl).2 (by decide)⟩

/-- C9: cancellation never changes any stored `bookingId`; a successful
cancellation rewrites only the `status`, `updatedAt` and `cancellation`
fields of the target document and leaves every other document untouched;
cancelling an already-cancelled booking rewrites nothing, so a stored
`refundEligible` flag is never recomputed. -/
theorem cancel_frame_effects (store : List Booking) (oid : Nat)
    (reason : Option String) (now : Int) (b : Booking)
    (hfind : findBooking store oid = some b) :
    ((cancelBooking store oid reason now).2).map (fun x => x.bookingId) =
        store.map (fun x => x.bookingId)
    ∧ (b.status ≠ some "cancelled" →
        findBooking (cancelBooking store oid reason now).2 oid =
          some (applyCancelSet now ⟨now, jsStrOr reason "User requested",
            refundEligibleAt now b.startDate⟩ b))
    ∧ ((cancelBooking store oid reason now).2).filter
          (fun x => !(x._id == oid)) =
        store.filter (fun x => !(x._id == oid))
    ∧ (b.status = some "cancelled" →
        (cancelBooking store oid reason now).2 = store) := by
  by_cases hcan : b.status = some "cancelled"
  · refine ⟨?_, ?_, ?_, ?_⟩ <;>
      simp [cancelBooking, hfind, hcan]
  · have hupd := findBooking_updateFirstBooking
      (applyCancelSet now ⟨now, jsStrOr reason "User requested",
        refundEligibleAt now b.startDate⟩)
      oid (fun x => rfl) store b hfind
    have hmap := map_updateFirstBooking (fun x => x.bookingId)
      (fun x => x._id == oid)
      (applyCancelSet now ⟨now, jsStrOr reason "User requested",
        refundEligibleAt now b.startDate⟩)
      (fun x => rfl) store
    have hfil := filter_not_updateFirstBooking (fun x => x._id == oid)
      (applyCancelSet now ⟨now, jsStrOr reason "User requested",
        refundEligibleAt now b.startDate⟩)
      (fun x => rfl) store
    refine ⟨?_, ?_, ?_, ?_⟩
    · simp [cancelBooking, hfind, hcan, hmap]
    · intro _
      simp [cancelBooking, hfind, hcan, hupd, applyCancelSet]
    · simp [cancelBooking, hfind, hcan, hfil]
    · intro h
      exact absurd h hcan

/-- Witness for C9 on the sample store. -/
theorem cancel_frame_effects_witness :
    ((cancelBooking [sampleBooking] 1 none 0).2).map (fun x => x.bookingId) =
        [sampleBooking].map (fun x => x.bookingId)
    ∧ (sampleBooking.status ≠ some "cancelled" →
        findBooking (cancelBooking [sampleBooking] 1 none 0).2 1 =
          some (applyCancelSet 0 ⟨0, jsStrOr none "User requested",
            refundEligibleAt 0 sampleBooking.startDate⟩ sampleBooking))
    ∧ ((cancelBooking [sampleBooking] 1 none 0).2).filter
          (fun x => !(x._id == 1)) =
        [sampleBooking].filter (fun x => !(x._id == 1))
    ∧ (sampleBooking.status = some "cancelled" →
        (cancelBooking [sampleBooking] 1 none 0).2 = [sampleBooking]) :=
  cancel_frame_effects [sampleBooking] 1 none 0 sampleBooking rfl

/-- Rewrites `if p then true else c` into a disjunction-shaped boolean, used
to unfold the truthiness guards of the admin query builder. -/
lemma if_true_else_eq (p : Prop) [Decidable p] (c : Bool) :
    (if p then true else c) = (decide p || c) := by
  by_cases h : p <;> simp [h]

/-- The Mongo query object built by `GET /admin/bookings` holds of a booking
exactly when each (truthy) supplied filter holds of it. -/
lemma matchesAdmin_iff (q : AdminQuery) (b : Booking) :
    matchesAdmin q b = true ↔
      ((match q.status with
        | some s => s = "" ∨ b.status = some s
        | none => True) ∧
       (match q.resortId with
        | some rid => rid = "" ∨ b.resortId = rid
        | none => True) ∧
       (match q.startDate, q.endDate with
        | some lo, some hi => lo ≤ b.startDate ∧ b.endDate ≤ hi
        | _, _ => True)) := by
  unfold matchesAdmin
  rcases q.status with _ | s <;> rcases q.resortId with _ | rid <;>
    rcases q.startDate with _ | lo <;> rcases q.endDate with _ | hi <;>
    simp [if_true_else_eq, Bool.and_eq_true, Bool.or_eq_true,
      decide_eq_true_eq, beq_iff_eq, and_assoc]

/-- C4: no document returned by the owner booking listing carries a
`paymentInfo` field, whatever is stored. -/
theorem ownerBookings_exclude_payment (store : List Booking) (e : String)
    (fmt : Int → String) (v : DisplayBooking)
    (hv : v ∈ ownerBookings store e fmt) : v.paymentInfo = none := by
  simp only [ownerBookings, List.mem_map] at hv
  obtain ⟨x, ⟨y, hy, rfl⟩, rfl⟩ := hv
  rfl

/-- Witness for C4: the sample booking stores payment info, yet its listed
form carries none. -/
theorem ownerBookings_exclude_payment_witness :
    (toDisplay (fun _ => "Jun 10, 2025") (redactPayment sampleBooking)).paymentInfo
      = none :=
  ownerBookings_exclude_payment [sampleBooking] "guest@example.com"
    (fun _ => "Jun 10, 2025")
    (toDisplay (fun _ => "Jun 10, 2025") (redactPayment sampleBooking))
    (by
      unfold ownerBookings
      rw [(by decide :
            List.filter (fun b => b.email == "guest@example.com")
              [sampleBooking] = [sampleBooking]),
        List.mergeSort_singleton]
      simp)

/-- C6: the admin booking query returns a stored booking iff it satisfies
every supplied filter (status equality, resort equality, and, when both
range bounds are supplied, start date at least the lower bound and end date
at most the upper bound), and the result is ordered newest first by
creation time. -/
theorem adminBookings_query_spec (store : List Booking) (q : AdminQuery)
    (b : Booking) :
    (b ∈ adminBookings store q ↔
      b ∈ store ∧
      ((match q.status with
        | some s => s = "" ∨ b.status = some s
        | none => True) ∧
       (match q.resortId with
        | some rid => rid = "" ∨ b.resortId = rid
        | none => True) ∧
       (match q.startDate, q.endDate with
        | some lo, some hi => lo ≤ b.startDate ∧ b.endDate ≤ hi
        | _, _ => True)))
    ∧ (adminBookings store q).Pairwise (fun x y => y.createdAt ≤ x.createdAt) := by
  constructor
  · rw [adminBookings, List.mem_mergeSort, List.mem_filter, matchesAdmin_iff]
  · have htrans : ∀ a b c : Booking, newestFirst a b = true →
        newestFirst b c = true → newestFirst a c = true := by
      intro a b c hab hbc
      simp only [newestFirst, decide_eq_true_eq] at *
      omega
    have htotal : ∀ a b : Booking, (newestFirst a b || newestFirst b a) = true := by
      intro a b
      simp only [newestFirst, Bool.or_eq_true, decide_eq_true_eq]
      omega
    have hs := @List.sorted_mergeSort Booking newestFirst htrans htotal
      (store.filter (matchesAdmin q))
    exact hs.imp (fun h => by simpa [newestFirst] using h)

/-- C5: creating a user whose email is already stored answers 409 conflict
and leaves the users collection unchanged, in both server versions. -/
theorem createUser_duplicate_conflict (users : List User) (nm e : String)
    (photo : Option String) (now : Int) (body : User) (u : User)
    (hmem : u ∈ users) (hemail : u.email = e) (hnm : nm ≠ "") (he : e ≠ "") :
    createUser users (some nm) (some e) photo now = (.conflict, users)
    ∧ createUserLegacy users (some nm) (some e) body = (.conflict, users) := by
  have hfind : (users.find? (fun x => x.email == e)).isSome := by
    rw [List.find?_isSome]
    exact ⟨u, hmem, by simp [hemail]⟩
  obtain ⟨v, hv⟩ := Option.isSome_iff_exists.mp hfind
  constructor
  · simp [createUser, hnm, he, hv]
  · simp [createUserLegacy, hnm, he, hv]

/-- Witness for C5: re-registering the sample user's email. -/
theorem createUser_duplicate_conflict_witness :
    createUser [sampleUser] (some "Brian") (some "brian@example.com") none 0 =
        (.conflict, [sampleUser])
    ∧ createUserLegacy [sampleUser] (some "Brian") (some "brian@example.com")
        sampleUser = (.conflict, [sampleUser]) :=
  createUser_duplicate_conflict [sampleUser] "Brian" "brian@example.com" none 0
    sampleUser sampleUser (List.mem_singleton.mpr rfl) rfl (by decide) (by decide)

/-- Counterexample to C7 as stated: `PATCH /update-user` of src/index.js with
an email matching no stored user modifies zero documents yet answers 200
with `{modified: 0}`, not 404. -/
theorem updateUser_zero_modified_not_notFound :
    (updateUser [] (some "brian@example.com") true).1 = UserRes.okModified 0
    ∧ ((updateUser [] (some "brian@example.com") true).1).statusCode = 200 := by
  constructor <;> rfl

/-- C7 (amended): the part_000 update handlers answer 404 exactly when the
store modifies zero documents and success otherwise, while the src/index.js
`PATCH /update-user` never answers 404. -/
theorem user_update_notFound_semantics (users : List User) (em : String)
    (bv : Bool) (a d : Option Int) (i : Option String) (e? : Option String)
    (hem : em ≠ "") :
    ((updateUserLegacy users (some em) (some bv)).1 = UserRes.notFound ↔
        (updateOneUsers (fun u => u.email == em) (setAdmin bv) users).1 = 0)
    ∧ ((updateUserLegacy users (some em) (some bv)).1 = UserRes.notFound ∨
        (updateUserLegacy users (some em) (some bv)).1 = UserRes.okMsg)
    ∧ ((updateUserInfo users e? a d i).1 = UserRes.notFound ↔
        (updateOneUsers (userEmailPred e?) (setInfo a d i) users).1 = 0)
    ∧ ((updateUserInfo users e? a d i).1 = UserRes.notFound ∨
        (updateUserInfo users e? a d i).1 = UserRes.okMsg)
    ∧ (updateUser users e? bv).1.statusCode ≠ 404 := by
  refine ⟨?_, ?_, ?_, ?_, ?_⟩
  · rcases h1 : updateOneUsers (fun u => u.email == em) (setAdmin bv) users
      with ⟨n, us⟩
    by_cases hn : n = 0 <;> simp [updateUserLegacy, hem, h1, hn]
  · rcases h1 : updateOneUsers (fun u => u.email == em) (setAdmin bv) users
      with ⟨n, us⟩
    by_cases hn : n = 0 <;> simp [updateUserLegacy, hem, h1, hn]
  · rcases h2 : updateOneUsers (userEmailPred e?) (setInfo a d i) users
      with ⟨n, us⟩
    by_cases hn : n = 0 <;> simp [updateUserInfo, h2, hn]
  · rcases h2 : updateOneUsers (userEmailPred e?) (setInfo a d i) users
      with ⟨n, us⟩
    by_cases hn : n = 0 <;> simp [updateUserInfo, h2, hn]
  · rcases e? with _ | e
    · simp [updateUser, UserRes.statusCode]
    · by_cases hee : e = ""
      · simp [updateUser, hee, UserRes.statusCode]
      · rcases h3 : updateOneUsers (fun u => u.email == e) (setAdmin bv) users
          with ⟨n, us⟩
        simp [updateUser, hee, h3, UserRes.statusCode]

/-- Witness for the amended C7 on a store that holds only the sample user. -/
theorem user_update_notFound_semantics_witness :
    ("absent@example.com" : String) ≠ ""
    ∧ ((updateUserLegacy [sampleUser] (some "absent@example.com") (some true)).1 =
          UserRes.notFound ↔
        (updateOneUsers (fun u => u.email == "absent@example.com")
          (setAdmin true) [sampleUser]).1 = 0)
    ∧ (updateUser [sampleUser] (some "absent@example.com") true).1.statusCode
        ≠ 404 :=
  ⟨by decide,
   (user_update_notFound_semantics [sampleUser] "absent@example.com" true
      none none none (some "absent@example.com") (by decide)).1,
   (user_update_notFound_semantics [sampleUser] "absent@example.com" true
      none none none (some "absent@example.com") (by decide)).2.2.2.2⟩
